import Mathlib

/-!
Shallow embedding of the manifest-synthesis and admission-control layer of the
opentelemetry-operator sources under verification: the OpAMPBridge admission
webhook (package v1alpha1), the target-allocator Deployment compiler and the
collector DaemonSet compiler, together with the spec-described helpers they
call whose definitions live outside the provided sources.

Label and annotation maps are modelled as association lists with Go map
semantics: the first binding of a key wins, and reading a missing key yields
the zero value, the empty string.
-/

/-- Association-list read, first binding wins (Go map read). -/
def lookupL : List (String × String) → String → Option String
  | [], _ => none
  | a :: rest, k => if a.1 = k then some a.2 else lookupL rest k

/-- Go map read returning the zero value for a missing key. -/
def getD (m : List (String × String)) (k : String) : String :=
  (lookupL m k).getD ""

/-- Go map write: replace the first binding of the key, or append a new binding. -/
def setL : List (String × String) → String → String → List (String × String)
  | [], k, v => [(k, v)]
  | a :: rest, k, v => if a.1 = k then (k, v) :: rest else a :: setL rest k v

theorem lookupL_setL_eq (m : List (String × String)) (k v : String) :
    lookupL (setL m k v) k = some v := by
  induction m with
  | nil => simp [setL, lookupL]
  | cons a rest ih =>
      by_cases h : a.1 = k
      · simp [setL, lookupL, h]
      · simp [setL, lookupL, h, ih]

theorem lookupL_setL_ne (m : List (String × String)) (k v q : String) (h : q ≠ k) :
    lookupL (setL m k v) q = lookupL m q := by
  induction m with
  | nil => simp [setL, lookupL, Ne.symm h]
  | cons a rest ih =>
      by_cases h2 : a.1 = k
      · subst h2
        simp [setL, lookupL, Ne.symm h]
      · show lookupL (if a.1 = k then (k, v) :: rest else a :: setL rest k v) q = _
        rw [if_neg h2]
        by_cases h3 : a.1 = q
        · simp [lookupL, h3]
        · simp [lookupL, h3, ih]

theorem getD_setL_eq (m : List (String × String)) (k v : String) :
    getD (setL m k v) k = v := by
  simp [getD, lookupL_setL_eq]

/-- The canonical component label key. -/
def componentKey : String := "app.kubernetes.io/component"

/-- The canonical instance label key. -/
def instanceKey : String := "app.kubernetes.io/instance"

/-- The canonical managed-by label key. -/
def managedByKey : String := "app.kubernetes.io/managed-by"

/-- The canonical part-of label key. -/
def partOfKey : String := "app.kubernetes.io/part-of"

/-- The canonical version label key. -/
def versionKey : String := "app.kubernetes.io/version"

/-- The canonical name label key. -/
def nameKey : String := "app.kubernetes.io/name"

/-- The fixed managed-by label value. -/
def managedByValue : String := "opentelemetry-operator"

/-- The fixed part-of label value. -/
def partOfValue : String := "opentelemetry"

/-- The DNS policy used when the pod is not host networked. -/
def dnsClusterFirst : String := "ClusterFirst"

/-- The DNS policy used when the pod is host networked. -/
def dnsClusterFirstWithHostNet : String := "ClusterFirstWithHostNet"

/-- Modelled from the spec: glob-style label key matching with a single
wildcard (spec 4.1 and 9); the matching helper used for filtering is not
under the provided sources. -/
def globMatch (pat key : String) : Bool :=
  match pat.splitOn ("*") with
  | [_] => pat == key
  | [p, s] =>
      key.startsWith p && key.endsWith s
        && decide (p.length + s.length ≤ key.length)
  | _ => false

/-- Modelled from the spec: drops user labels whose key matches one of the
configured filter patterns (spec 4.1). -/
def filterLabels (ls : List (String × String)) (pats : List String) :
    List (String × String) :=
  ls.filter (fun kv => !(pats.any (fun p => globMatch p kv.1)))

/-- Modelled from the spec: canonical identity label synthesis (spec 4.1); the
shared helper computing it is not under the provided sources. Filtered user
labels are merged first, then the canonical keys are written unconditionally. -/
def identityLabels (component nspace rname canonicalName version : String)
    (userLabels : List (String × String)) : List (String × String) :=
  setL (setL (setL (setL (setL (setL userLabels managedByKey managedByValue)
    instanceKey (nspace ++ "." ++ rname)) partOfKey partOfValue)
    componentKey component) versionKey version) nameKey canonicalName

/-- Modelled from the spec: selector label synthesis (spec 4.1); only the
component, instance, managed-by and part-of keys. -/
def selectorLabels (component nspace rname : String) : List (String × String) :=
  [(componentKey, component), (instanceKey, nspace ++ "." ++ rname),
   (managedByKey, managedByValue), (partOfKey, partOfValue)]

theorem identityLabels_component (c ns rn cn ver : String)
    (u : List (String × String)) :
    lookupL (identityLabels c ns rn cn ver u) componentKey = some c := by
  unfold identityLabels
  rw [lookupL_setL_ne _ _ _ _ (show componentKey ≠ nameKey by decide),
    lookupL_setL_ne _ _ _ _ (show componentKey ≠ versionKey by decide),
    lookupL_setL_eq]

theorem identityLabels_instance (c ns rn cn ver : String)
    (u : List (String × String)) :
    lookupL (identityLabels c ns rn cn ver u) instanceKey = some (ns ++ "." ++ rn) := by
  unfold identityLabels
  rw [lookupL_setL_ne _ _ _ _ (show instanceKey ≠ nameKey by decide),
    lookupL_setL_ne _ _ _ _ (show instanceKey ≠ versionKey by decide),
    lookupL_setL_ne _ _ _ _ (show instanceKey ≠ componentKey by decide),
    lookupL_setL_ne _ _ _ _ (show instanceKey ≠ partOfKey by decide),
    lookupL_setL_eq]

theorem identityLabels_managedBy (c ns rn cn ver : String)
    (u : List (String × String)) :
    lookupL (identityLabels c ns rn cn ver u) managedByKey = some managedByValue := by
  unfold identityLabels
  rw [lookupL_setL_ne _ _ _ _ (show managedByKey ≠ nameKey by decide),
    lookupL_setL_ne _ _ _ _ (show managedByKey ≠ versionKey by decide),
    lookupL_setL_ne _ _ _ _ (show managedByKey ≠ componentKey by decide),
    lookupL_setL_ne _ _ _ _ (show managedByKey ≠ partOfKey by decide),
    lookupL_setL_ne _ _ _ _ (show managedByKey ≠ instanceKey by decide),
    lookupL_setL_eq]

theorem identityLabels_partOf (c ns rn cn ver : String)
    (u : List (String × String)) :
    lookupL (identityLabels c ns rn cn ver u) partOfKey = some partOfValue := by
  unfold identityLabels
  rw [lookupL_setL_ne _ _ _ _ (show partOfKey ≠ nameKey by decide),
    lookupL_setL_ne _ _ _ _ (show partOfKey ≠ versionKey by decide),
    lookupL_setL_ne _ _ _ _ (show partOfKey ≠ componentKey by decide),
    lookupL_setL_eq]

structure ContainerSpec where
  name : String := ""
  image : String := ""
  deriving DecidableEq

structure Toleration where
  key : String := ""
  value : String := ""
  effect : String := ""
  deriving DecidableEq

structure VolumeSpec where
  name : String := ""
  deriving DecidableEq

structure SecurityContextSpec where
  payload : String := ""
  deriving DecidableEq

structure AffinitySpec where
  payload : String := ""
  deriving DecidableEq

structure TopologyConstraintSpec where
  payload : String := ""
  deriving DecidableEq

/-- The dependent config object whose content hash may enrich annotations. -/
structure TAConfigMap where
  data : String := ""
  deriving DecidableEq

/-- Process-wide configuration: the label-filter glob pattern list. -/
structure Config where
  labelFilters : List String := []
  deriving DecidableEq

/-- The target-allocator section of the collector resource spec. -/
structure TargetAllocatorSubSpec where
  replicas : Option Int := none
  nodeSelector : List (String × String) := []
  topologySpreadConstraints : List TopologyConstraintSpec := []
  deriving DecidableEq

/-- Collector resource spec fields used by the compilers under verification. -/
structure OtelColSpec where
  initContainers : List ContainerSpec := []
  additionalContainers : List ContainerSpec := []
  volumes : List VolumeSpec := []
  tolerations : List Toleration := []
  nodeSelector : List (String × String) := []
  hostNetwork : Bool := false
  podSecurityContext : Option SecurityContextSpec := none
  priorityClassName : String := ""
  affinity : Option AffinitySpec := none
  podAnnotations : List (String × String) := []
  targetAllocator : TargetAllocatorSubSpec := {}
  deriving DecidableEq

/-- The collector custom resource; nspace stands for the namespace field. -/
structure OtelCol where
  name : String := ""
  nspace : String := ""
  labels : List (String × String) := []
  annotations : List (String × String) := []
  spec : OtelColSpec := {}
  deriving DecidableEq

/-- Object metadata of a compiled workload or pod template. -/
structure ObjectMeta where
  name : String := ""
  nspace : String := ""
  labels : List (String × String) := []
  annotations : List (String × String) := []
  deriving DecidableEq

/-- The assembled pod spec; unset fields carry the Go zero values of the
corresponding corev1 PodSpec fields. -/
structure PodSpec where
  serviceAccountName : String := ""
  initContainers : List ContainerSpec := []
  containers : List ContainerSpec := []
  volumes : List VolumeSpec := []
  tolerations : List Toleration := []
  nodeSelector : List (String × String) := []
  hostNetwork : Bool := false
  dnsPolicy : String := ""
  securityContext : Option SecurityContextSpec := none
  priorityClassName : String := ""
  affinity : Option AffinitySpec := none
  topologySpreadConstraints : List TopologyConstraintSpec := []
  deriving DecidableEq

structure PodTemplateSpec where
  meta : ObjectMeta := {}
  spec : PodSpec := {}
  deriving DecidableEq

/-- A compiled Deployment manifest. -/
structure DeploymentK where
  meta : ObjectMeta := {}
  replicas : Option Int := none
  selectorMatchLabels : List (String × String) := []
  template : PodTemplateSpec := {}
  deriving DecidableEq

/-- A compiled DaemonSet manifest. -/
structure DaemonSetK where
  meta : ObjectMeta := {}
  selectorMatchLabels : List (String × String) := []
  template : PodTemplateSpec := {}
  deriving DecidableEq

/-- The manifests.Params bundle handed to the compilers. The field
taConfigMapResult carries the outcome of the ConfigMap builder called by the
target-allocator Deployment; that builder is not under the provided sources. -/
structure Params where
  otelCol : OtelCol := {}
  config : Config := {}
  taConfigMapResult : Except String TAConfigMap := Except.ok {}

namespace naming

/-- Modelled from the spec: canonical workload name of the target allocator;
the naming helper is not under the provided sources. -/
def TargetAllocator (name : String) : String :=
  name ++ "-targetallocator"

/-- Modelled from the spec: canonical workload name of the collector; the
naming helper is not under the provided sources. -/
def Collector (name : String) : String :=
  name ++ "-collector"

/-- Modelled from the spec: canonical workload name of the opamp bridge; the
naming helper is not under the provided sources, its value is fixed by the
bridge deployment tests. -/
def OpAMPBridge (name : String) : String :=
  name ++ "-opamp-bridge"

end naming

namespace v1alpha1

/-- A declared port of the OpAMPBridge spec. -/
structure PortSpec where
  name : String := ""
  port : Int := 0
  deriving DecidableEq

/-- The OpAMPBridge resource spec; fields beyond the webhook surface are the
ones the bridge deployment tests exercise. -/
structure OpAMPBridgeSpec where
  upgradeStrategy : String := ""
  replicas : Option Int := none
  endpoint : String := ""
  protocol : String := ""
  capabilities : List String := []
  ports : List PortSpec := []
  tolerations : List Toleration := []
  nodeSelector : List (String × String) := []
  hostNetwork : Bool := false
  podSecurityContext : Option SecurityContextSpec := none
  priorityClassName : String := ""
  affinity : Option AffinitySpec := none
  podAnnotations : List (String × String) := []
  deriving DecidableEq

/-- The OpAMPBridge resource; a Go nil label map is the none case, and nspace
stands for the namespace field. -/
structure OpAMPBridge where
  name : String := ""
  nspace : String := ""
  labels : Option (List (String × String)) := none
  spec : OpAMPBridgeSpec := {}
  deriving DecidableEq

/-- Modelled from the spec: the canonical automatic upgrade strategy constant;
its declaration lives outside the provided sources. -/
def UpgradeStrategyAutomatic : String := "automatic"

/-- Go map read on a possibly nil label map: a nil map reads as empty. -/
def labelValue (r : OpAMPBridge) (k : String) : String :=
  getD (r.labels.getD []) k

/-- Defaulting webhook of the OpAMPBridge resource, translated from Default in
the webhook source: fill the upgrade strategy when its length is zero, ensure
a non-empty managed-by label, fill the replica count when the pointer is nil. -/
def Default (r : OpAMPBridge) : OpAMPBridge :=
  let us := if r.spec.upgradeStrategy = "" then UpgradeStrategyAutomatic
    else r.spec.upgradeStrategy
  let ls0 := r.labels.getD []
  let ls := if getD ls0 managedByKey = "" then setL ls0 managedByKey managedByValue
    else ls0
  let reps := match r.spec.replicas with
    | none => some (1 : Int)
    | some n => some n
  { r with labels := some ls,
           spec := { r.spec with upgradeStrategy := us, replicas := reps } }

/-- Charset check of the Kubernetes port-name validation: lowercase letters,
digits and hyphen, at least one character. -/
def isPortNameChar (c : Char) : Bool :=
  (decide (Char.ofNat 97 ≤ c) && decide (c ≤ Char.ofNat 122))
    || (decide (Char.ofNat 48 ≤ c) && decide (c ≤ Char.ofNat 57))
    || c == Char.ofNat 45

/-- The string holds at least one lowercase letter. -/
def hasLowerLetter (s : String) : Bool :=
  s.any (fun c => decide (Char.ofNat 97 ≤ c) && decide (c ≤ Char.ofNat 122))

/-- The character list holds two adjacent hyphens. -/
def hasConsecHyphens : List Char → Bool
  | c :: d :: rest =>
      (c == Char.ofNat 45 && d == Char.ofNat 45) || hasConsecHyphens (d :: rest)
  | _ => false

/-- Translation of the Kubernetes IsValidPortName library check called by
validateCRDSpec: true exactly when the check reports no errors. -/
def IsValidPortName (s : String) : Bool :=
  decide (s.length ≤ 15)
    && (decide (0 < s.length) && s.all isPortNameChar)
    && hasLowerLetter s
    && !hasConsecHyphens s.data
    && !(decide (0 < s.length) && (s.front == Char.ofNat 45 || s.back == Char.ofNat 45))

/-- Translation of the Kubernetes IsValidPortNum library check called by
validateCRDSpec: the port lies between 1 and 65535. -/
def IsValidPortNum (p : Int) : Bool :=
  decide (1 ≤ p ∧ p ≤ 65535)

/-- The loop-body condition of validateCRDSpec: this port entry has
name-format or numeric-range errors. -/
def portInvalid (p : PortSpec) : Bool :=
  !(IsValidPortName p.name) || !(IsValidPortNum p.port)

/-- A whitespace character in the sense of the Go strings.TrimSpace call of
validateCRDSpec (the ASCII cases). -/
def isSpaceChar (c : Char) : Bool :=
  c == Char.ofNat 32 || c == Char.ofNat 9 || c == Char.ofNat 10
    || c == Char.ofNat 13 || c == Char.ofNat 11 || c == Char.ofNat 12

/-- Leading and trailing whitespace removal over the character list. -/
def trimSpaceList (l : List Char) : List Char :=
  ((l.dropWhile isSpaceChar).reverse.dropWhile isSpaceChar).reverse

/-- Translation of the Go strings.TrimSpace call of validateCRDSpec. -/
def trimSpace (s : String) : String :=
  String.mk (trimSpaceList s.data)

/-- Structural spec validation of the OpAMPBridge resource, translated from
validateCRDSpec: required-field checks in order, then the port loop, stopping
at the first failure. -/
def validateCRDSpec (r : OpAMPBridge) : Option String :=
  if (trimSpace r.spec.endpoint).length = 0 then
    some ("the OpAMP server endpoint is not specified")
  else if (trimSpace r.spec.protocol).length = 0 then
    some ("the transport for OpAMP server protocol is not specified")
  else if r.spec.capabilities.length = 0 then
    some ("the capabilities supported by OpAMP Bridge are not specified")
  else
    match r.spec.ports.find? portInvalid with
    | some p =>
        some ("the OpAMPBridge Spec Ports configuration is incorrect, port name "
          ++ p.name ++ ", num " ++ toString p.port)
    | none => none

/-- Create-time validation hook, translated from ValidateCreate: the source
calls validateCRDSpec, discards its result and returns nil. -/
def ValidateCreate (r : OpAMPBridge) : Option String :=
  let _ignored := validateCRDSpec r
  none

/-- Update-time validation hook, translated from ValidateUpdate: logs and
returns nil. -/
def ValidateUpdate (r : OpAMPBridge) (old : OpAMPBridge) : Option String :=
  none

/-- Delete-time validation hook, translated from ValidateDelete: logs and
returns nil. -/
def ValidateDelete (r : OpAMPBridge) : Option String :=
  none

end v1alpha1

namespace targetallocator

/-- Modelled from the spec: identity labels of the target allocator (spec 4.1);
the Labels helper is not under the provided sources. No filter list applies
on this path. -/
def Labels (otelcol : OtelCol) (name : String) : List (String × String) :=
  identityLabels ("opentelemetry-targetallocator") otelcol.nspace otelcol.name
    name ("latest") otelcol.labels

/-- Modelled from the spec: the fixed annotation key carrying the dependent
config checksum (spec 4.2). -/
def checksumKey : String := "opentelemetry-targetallocator-config/hash"

/-- Modelled from the spec: the content hash of the dependent config object
(spec 4.2); the hashing helper is not under the provided sources. -/
def configHash (cm : TAConfigMap) : String :=
  cm.data

/-- Modelled from the spec: annotation synthesis (spec 4.2); resource
annotations pass through, and the checksum key is added only when the
dependent config object is present. -/
def Annotations (otelcol : OtelCol) (cm : Option TAConfigMap) :
    List (String × String) :=
  match cm with
  | none => otelcol.annotations
  | some c => setL otelcol.annotations checksumKey (configHash c)

/-- Modelled from the spec: service account resolution; not under the provided
sources. -/
def ServiceAccountName (otelcol : OtelCol) : String :=
  naming.TargetAllocator otelcol.name

/-- Modelled from the spec: the single primary container of the target
allocator (spec 4.3); the builder is not under the provided sources. -/
def Container (cfg : Config) (otelcol : OtelCol) : ContainerSpec :=
  { name := "ta-container" }

/-- Modelled from the spec: volume assembly (spec 4.3); pass-through of the
declared volumes. -/
def Volumes (cfg : Config) (otelcol : OtelCol) : List VolumeSpec :=
  otelcol.spec.volumes

/-- Target-allocator Deployment compiler, translated from the target-allocator
deployment source. A failed ConfigMap construction is logged by the source and
replaced by nil; here the outcome of that absent builder arrives in params and
the error case maps to none before annotation synthesis. -/
def Deployment (params : Params) : DeploymentK :=
  let otelcol := params.otelCol
  let name := naming.TargetAllocator otelcol.name
  let labels := Labels otelcol name
  let configMap : Option TAConfigMap :=
    match params.taConfigMapResult with
    | Except.ok cm => some cm
    | Except.error _ => none
  let anns := Annotations otelcol configMap
  { meta := { name := name, nspace := otelcol.nspace, labels := labels },
    replicas := otelcol.spec.targetAllocator.replicas,
    selectorMatchLabels := labels,
    template :=
      { meta := { labels := labels, annotations := anns },
        spec :=
          { serviceAccountName := ServiceAccountName otelcol,
            containers := [Container params.config otelcol],
            volumes := Volumes params.config otelcol,
            nodeSelector := otelcol.spec.targetAllocator.nodeSelector,
            topologySpreadConstraints :=
              otelcol.spec.targetAllocator.topologySpreadConstraints } } }

end targetallocator

namespace collector

/-- Modelled from the spec: identity labels of the collector (spec 4.1); the
Labels helper is not under the provided sources. The configured label filters
apply to the user labels first. -/
def Labels (otelcol : OtelCol) (name : String) (filters : List String) :
    List (String × String) :=
  identityLabels ("opentelemetry-collector") otelcol.nspace otelcol.name name
    ("latest") (filterLabels otelcol.labels filters)

/-- Modelled from the spec: selector labels of the collector (spec 4.1); only
the component, instance, managed-by and part-of keys. -/
def SelectorLabels (otelcol : OtelCol) : List (String × String) :=
  selectorLabels ("opentelemetry-collector") otelcol.nspace otelcol.name

/-- Modelled from the spec: workload annotations of the collector (spec 4.2);
pass-through of the resource annotations. -/
def Annotations (otelcol : OtelCol) : List (String × String) :=
  otelcol.annotations

/-- Modelled from the spec: pod annotations of the collector (spec 4.2);
pass-through of the pod-scoped field. -/
def PodAnnotations (otelcol : OtelCol) : List (String × String) :=
  otelcol.spec.podAnnotations

/-- Modelled from the spec: service account resolution; not under the provided
sources. -/
def ServiceAccountName (otelcol : OtelCol) : String :=
  naming.Collector otelcol.name

/-- Modelled from the spec: the single primary collector container (spec 4.3);
the builder is not under the provided sources. -/
def Container (cfg : Config) (otelcol : OtelCol) (isDaemonSet : Bool) :
    ContainerSpec :=
  { name := "otc-container" }

/-- Modelled from the spec: volume assembly (spec 4.3); pass-through of the
declared volumes. -/
def Volumes (cfg : Config) (otelcol : OtelCol) : List VolumeSpec :=
  otelcol.spec.volumes

/-- Modelled from the spec: the DNS policy helper called by the DaemonSet
compiler; getDNSPolicy is not under the provided sources. ClusterFirst when
host networking is off, ClusterFirstWithHostNet when it is on. -/
def getDNSPolicy (otelcol : OtelCol) : String :=
  if otelcol.spec.hostNetwork then dnsClusterFirstWithHostNet else dnsClusterFirst

/-- Collector DaemonSet compiler, translated from the collector daemonset
source. The containers field appends the primary container after the declared
additional containers, as the Go append call does. -/
def DaemonSet (params : Params) : DaemonSetK :=
  let otelcol := params.otelCol
  let name := naming.Collector otelcol.name
  let labels := Labels otelcol name params.config.labelFilters
  let anns := Annotations otelcol
  let podAnns := PodAnnotations otelcol
  { meta := { name := naming.Collector otelcol.name, nspace := otelcol.nspace,
              labels := labels, annotations := anns },
    selectorMatchLabels := SelectorLabels otelcol,
    template :=
      { meta := { labels := labels, annotations := podAnns },
        spec :=
          { serviceAccountName := ServiceAccountName otelcol,
            initContainers := otelcol.spec.initContainers,
            containers :=
              otelcol.spec.additionalContainers
                ++ [Container params.config otelcol true],
            volumes := Volumes params.config otelcol,
            tolerations := otelcol.spec.tolerations,
            nodeSelector := otelcol.spec.nodeSelector,
            hostNetwork := otelcol.spec.hostNetwork,
            dnsPolicy := getDNSPolicy otelcol,
            securityContext := otelcol.spec.podSecurityContext,
            priorityClassName := otelcol.spec.priorityClassName,
            affinity := otelcol.spec.affinity } } }

end collector

namespace opampbridge

/-- Modelled from the spec: identity labels of the opamp bridge (spec 4.1 and
the bridge deployment tests under the provided sources). -/
def Labels (bridge : v1alpha1.OpAMPBridge) (name : String)
    (filters : List String) : List (String × String) :=
  identityLabels ("opentelemetry-opamp-bridge") bridge.nspace bridge.name name
    ("latest") (filterLabels (bridge.labels.getD []) filters)

/-- Modelled from the spec: selector labels of the opamp bridge (spec 4.1);
only the component, instance, managed-by and part-of keys, as the bridge
deployment tests assert. -/
def SelectorLabels (bridge : v1alpha1.OpAMPBridge) : List (String × String) :=
  selectorLabels ("opentelemetry-opamp-bridge") bridge.nspace bridge.name

/-- Modelled from the spec: the single primary bridge container (spec 4.3);
the builder is not under the provided sources. -/
def Container (cfg : Config) (bridge : v1alpha1.OpAMPBridge) : ContainerSpec :=
  { name := "opamp-bridge-container" }

/-- Modelled from the spec: the opamp bridge Deployment compiler (spec 4.3,
4.4 and the bridge deployment tests under the provided sources); the compiler
itself is not under the provided sources. The pod spec maps the resource
fields with the documented conditional defaults, and the DNS policy follows
the host-network flag. -/
def Deployment (cfg : Config) (bridge : v1alpha1.OpAMPBridge) : DeploymentK :=
  let name := naming.OpAMPBridge bridge.name
  let labels := Labels bridge name cfg.labelFilters
  { meta := { name := name, nspace := bridge.nspace, labels := labels },
    replicas := bridge.spec.replicas,
    selectorMatchLabels := SelectorLabels bridge,
    template :=
      { meta := { labels := labels, annotations := bridge.spec.podAnnotations },
        spec :=
          { serviceAccountName := name,
            containers := [Container cfg bridge],
            tolerations := bridge.spec.tolerations,
            nodeSelector := bridge.spec.nodeSelector,
            hostNetwork := bridge.spec.hostNetwork,
            dnsPolicy := if bridge.spec.hostNetwork then dnsClusterFirstWithHostNet
              else dnsClusterFirst,
            securityContext := bridge.spec.podSecurityContext,
            priorityClassName := bridge.spec.priorityClassName,
            affinity := bridge.spec.affinity } } }

end opampbridge

theorem managedByValue_ne_empty : managedByValue ≠ "" := by
  decide

theorem upgradeStrategyAutomatic_ne_empty : v1alpha1.UpgradeStrategyAutomatic ≠ "" := by
  decide

/-- C5: Default is idempotent: for every OpAMPBridge resource the second
application of the defaulting webhook changes nothing, so
Default (Default r) = Default r. -/
theorem c5_default_idempotent (r : v1alpha1.OpAMPBridge) :
    v1alpha1.Default (v1alpha1.Default r) = v1alpha1.Default r := by
  obtain ⟨nm, ns, lab, sp⟩ := r
  obtain ⟨us, reps, ep, pr, caps, ports, tol, nsel, hn, psc, pcn, aff, pann⟩ := sp
  by_cases h1 : us = "" <;>
    by_cases h2 : getD (lab.getD []) managedByKey = "" <;>
      cases reps <;>
        simp [v1alpha1.Default, h1, h2, getD_setL_eq,
          upgradeStrategyAutomatic_ne_empty, managedByValue_ne_empty]

/-- C6: after Default runs, an unset upgrade strategy becomes the canonical
automatic strategy, the managed-by label is present (with the value
opentelemetry-operator when it was absent), an unset replica count becomes 1,
and fields already set to non-empty values stay unchanged. -/
theorem c6_default_fields (r : v1alpha1.OpAMPBridge) :
    (r.spec.upgradeStrategy = "" →
      (v1alpha1.Default r).spec.upgradeStrategy = v1alpha1.UpgradeStrategyAutomatic) ∧
    (r.spec.upgradeStrategy ≠ "" →
      (v1alpha1.Default r).spec.upgradeStrategy = r.spec.upgradeStrategy) ∧
    (v1alpha1.labelValue r managedByKey = "" →
      v1alpha1.labelValue (v1alpha1.Default r) managedByKey = managedByValue) ∧
    (v1alpha1.labelValue r managedByKey ≠ "" →
      v1alpha1.labelValue (v1alpha1.Default r) managedByKey
        = v1alpha1.labelValue r managedByKey) ∧
    (r.spec.replicas = none → (v1alpha1.Default r).spec.replicas = some 1) ∧
    (∀ n, r.spec.replicas = some n → (v1alpha1.Default r).spec.replicas = some n) ∧
    (v1alpha1.Default r).spec.endpoint = r.spec.endpoint ∧
    (v1alpha1.Default r).spec.protocol = r.spec.protocol ∧
    (v1alpha1.Default r).spec.capabilities = r.spec.capabilities ∧
    (v1alpha1.Default r).spec.ports = r.spec.ports ∧
    (v1alpha1.Default r).name = r.name := by
  refine ⟨?_, ?_, ?_, ?_, ?_, ?_, ?_, ?_, ?_, ?_, ?_⟩
  · intro h
    simp [v1alpha1.Default, h]
  · intro h
    simp [v1alpha1.Default, h]
  · intro h
    simp [v1alpha1.Default, v1alpha1.labelValue] at h ⊢
    simp [h, getD_setL_eq]
  · intro h
    simp [v1alpha1.Default, v1alpha1.labelValue] at h ⊢
    simp [h]
  · intro h
    simp [v1alpha1.Default, h]
  · intro n h
    simp [v1alpha1.Default, h]
  · simp [v1alpha1.Default]
  · simp [v1alpha1.Default]
  · simp [v1alpha1.Default]
  · simp [v1alpha1.Default]
  · simp [v1alpha1.Default]

/-- C6 witness: a fully unset resource exercises the three defaulting
branches. -/
def c6Bridge : v1alpha1.OpAMPBridge :=
  { name := "c6-bridge" }

theorem c6_default_fields_witness :
    (v1alpha1.Default c6Bridge).spec.upgradeStrategy
      = v1alpha1.UpgradeStrategyAutomatic ∧
    v1alpha1.labelValue (v1alpha1.Default c6Bridge) managedByKey = managedByValue ∧
    (v1alpha1.Default c6Bridge).spec.replicas = some 1 :=
  ⟨(c6_default_fields c6Bridge).1 rfl,
   (c6_default_fields c6Bridge).2.2.1 rfl,
   (c6_default_fields c6Bridge).2.2.2.2.1 rfl⟩

/-- C10: a managed-by label explicitly present with the empty string as value
is treated like an absent label: Default overwrites it with
opentelemetry-operator, and after Default the managed-by label is never the
empty string. -/
theorem c10_managed_by_overwritten (r : v1alpha1.OpAMPBridge) :
    (v1alpha1.labelValue r managedByKey = "" →
      v1alpha1.labelValue (v1alpha1.Default r) managedByKey = managedByValue) ∧
    v1alpha1.labelValue (v1alpha1.Default r) managedByKey ≠ "" := by
  constructor
  · intro h
    simp [v1alpha1.Default, v1alpha1.labelValue] at h ⊢
    simp [h, getD_setL_eq]
  · by_cases h : v1alpha1.labelValue r managedByKey = ""
    · simp [v1alpha1.Default, v1alpha1.labelValue] at h ⊢
      simp [h, getD_setL_eq, managedByValue_ne_empty]
    · simp [v1alpha1.Default, v1alpha1.labelValue] at h ⊢
      simp [h]

/-- C10 witness: a resource whose managed-by label is explicitly the empty
string. -/
def c10Bridge : v1alpha1.OpAMPBridge :=
  { name := "c10-bridge", labels := some [(managedByKey, "")] }

theorem c10_managed_by_overwritten_witness :
    v1alpha1.labelValue (v1alpha1.Default c10Bridge) managedByKey = managedByValue ∧
    v1alpha1.labelValue (v1alpha1.Default c10Bridge) managedByKey ≠ "" :=
  ⟨(c10_managed_by_overwritten c10Bridge).1 rfl,
   (c10_managed_by_overwritten c10Bridge).2⟩

/-- C9: ValidateUpdate and ValidateDelete perform no checks and return no
error for every resource and old object. -/
theorem c9_update_delete_no_checks (r old : v1alpha1.OpAMPBridge) :
    v1alpha1.ValidateUpdate r old = none ∧ v1alpha1.ValidateDelete r = none :=
  ⟨rfl, rfl⟩

/-- C1 failing input: whitespace-only endpoint, everything else valid. -/
def c1BridgeNoEndpoint : v1alpha1.OpAMPBridge :=
  { name := "c1-bridge",
    spec := { endpoint := "   ", protocol := "http",
              capabilities := ["AcceptsRemoteConfig"] } }

/-- C1 failing input: endpoint and protocol set, zero capabilities. -/
def c1BridgeNoCapabilities : v1alpha1.OpAMPBridge :=
  { name := "c1-bridge-nocaps",
    spec := { endpoint := "ws://opamp-server:4320/v1/opamp", protocol := "wss",
              capabilities := [] } }

/-- C1: the claim says ValidateCreate rejects a resource with an empty or
whitespace-only endpoint, or with zero capabilities. The source computes the
matching rejection inside validateCRDSpec, with the documented check order and
messages, but ValidateCreate discards that result and returns nil, admitting
both invalid resources. -/
theorem c1_validate_create_admits_invalid :
    v1alpha1.ValidateCreate c1BridgeNoEndpoint = none ∧
    v1alpha1.validateCRDSpec c1BridgeNoEndpoint =
      some ("the OpAMP server endpoint is not specified") ∧
    v1alpha1.ValidateCreate c1BridgeNoCapabilities = none ∧
    v1alpha1.validateCRDSpec c1BridgeNoCapabilities =
      some ("the capabilities supported by OpAMP Bridge are not specified") := by
  refine ⟨rfl, ?_, rfl, ?_⟩ <;> decide

theorem selector_in_identity (c ns rn cn ver : String)
    (u : List (String × String)) (k v : String)
    (h : lookupL (selectorLabels c ns rn) k = some v) :
    lookupL (identityLabels c ns rn cn ver u) k = some v := by
  simp only [selectorLabels, lookupL] at h
  by_cases h1 : componentKey = k
  · subst h1
    simp only [if_pos rfl] at h
    cases h
    exact identityLabels_component c ns rn cn ver u
  · rw [if_neg h1] at h
    by_cases h2 : instanceKey = k
    · subst h2
      simp only [if_pos rfl] at h
      cases h
      exact identityLabels_instance c ns rn cn ver u
    · rw [if_neg h2] at h
      by_cases h3 : managedByKey = k
      · subst h3
        simp only [if_pos rfl] at h
        cases h
        exact identityLabels_managedBy c ns rn cn ver u
      · rw [if_neg h3] at h
        by_cases h4 : partOfKey = k
        · subst h4
          simp only [if_pos rfl] at h
          cases h
          exact identityLabels_partOf c ns rn cn ver u
        · rw [if_neg h4] at h
          cases h

/-- C2: in every compiled workload manifest, each key and value pair of the
selector match labels is present with an identical value in the pod template
label set; stated for the target-allocator Deployment, the collector DaemonSet
and the bridge Deployment. -/
theorem c2_selector_labels_in_template (params : Params) (cfg : Config)
    (bridge : v1alpha1.OpAMPBridge) (k v : String) :
    (lookupL (targetallocator.Deployment params).selectorMatchLabels k = some v →
      lookupL (targetallocator.Deployment params).template.meta.labels k = some v) ∧
    (lookupL (collector.DaemonSet params).selectorMatchLabels k = some v →
      lookupL (collector.DaemonSet params).template.meta.labels k = some v) ∧
    (lookupL (opampbridge.Deployment cfg bridge).selectorMatchLabels k = some v →
      lookupL (opampbridge.Deployment cfg bridge).template.meta.labels k = some v) := by
  refine ⟨?_, ?_, ?_⟩
  · intro h
    exact h
  · intro h
    exact selector_in_identity ("opentelemetry-collector") params.otelCol.nspace
      params.otelCol.name (naming.Collector params.otelCol.name) ("latest")
      (filterLabels params.otelCol.labels params.config.labelFilters) k v h
  · intro h
    exact selector_in_identity ("opentelemetry-opamp-bridge") bridge.nspace
      bridge.name (naming.OpAMPBridge bridge.name) ("latest")
      (filterLabels (bridge.labels.getD []) cfg.labelFilters) k v h

/-- C2 witness input. -/
def c2Params : Params :=
  { otelCol := { name := "c2-col", nspace := "c2-ns" } }

theorem c2_selector_labels_in_template_witness :
    lookupL (collector.DaemonSet c2Params).template.meta.labels componentKey
      = some ("opentelemetry-collector") :=
  (c2_selector_labels_in_template c2Params {} {} componentKey
    ("opentelemetry-collector")).2.1 (by decide)

/-- C3 scenario resource: name my-instance, namespace my-namespace, no other
fields set. -/
def c3ScenarioBridge : v1alpha1.OpAMPBridge :=
  { name := "my-instance", nspace := "my-namespace" }

/-- C3 counterexample input: a target-allocator compile of a resource named
my-instance in my-namespace. -/
def c3TAParams : Params :=
  { otelCol := { name := "my-instance", nspace := "my-namespace" } }

/-- C3 counterexample: the claim says every compiled manifest has selector
match labels consisting of exactly the four keys component, instance,
managed-by and part-of. The target-allocator Deployment instead uses the full
identity label set as its selector, so at this concrete input the selector
also binds the name and version keys. -/
theorem c3_ta_selector_has_extra_keys :
    lookupL (targetallocator.Deployment c3TAParams).selectorMatchLabels nameKey
      = some ("my-instance-targetallocator") ∧
    lookupL (targetallocator.Deployment c3TAParams).selectorMatchLabels versionKey
      = some ("latest") ∧
    nameKey ≠ componentKey ∧ nameKey ≠ instanceKey ∧ nameKey ≠ managedByKey ∧
    nameKey ≠ partOfKey :=
  ⟨by decide, by decide, by decide, by decide, by decide, by decide⟩

/-- C3 amended: the bridge Deployment and the collector DaemonSet produce
selector match labels that are exactly the four keys component, instance,
managed-by and part-of, with instance formed as namespace.name, excluding the
name and version keys; the scenario resource my-instance in my-namespace
compiles to a Deployment named my-instance-opamp-bridge with one container
and exactly the four stated selector pairs. The target-allocator Deployment
is the exception: its selector is the full identity label set. -/
theorem c3_selector_exactly_four_keys (cfg : Config)
    (bridge : v1alpha1.OpAMPBridge) (params : Params) :
    (opampbridge.Deployment cfg bridge).selectorMatchLabels =
      [(componentKey, "opentelemetry-opamp-bridge"),
       (instanceKey, bridge.nspace ++ "." ++ bridge.name),
       (managedByKey, managedByValue), (partOfKey, partOfValue)] ∧
    (collector.DaemonSet params).selectorMatchLabels =
      [(componentKey, "opentelemetry-collector"),
       (instanceKey, params.otelCol.nspace ++ "." ++ params.otelCol.name),
       (managedByKey, managedByValue), (partOfKey, partOfValue)] ∧
    (opampbridge.Deployment {} c3ScenarioBridge).meta.name
      = "my-instance-opamp-bridge" ∧
    (opampbridge.Deployment {} c3ScenarioBridge).template.spec.containers.length
      = 1 ∧
    (opampbridge.Deployment {} c3ScenarioBridge).selectorMatchLabels =
      [(componentKey, "opentelemetry-opamp-bridge"),
       (instanceKey, "my-namespace.my-instance"),
       (managedByKey, "opentelemetry-operator"), (partOfKey, "opentelemetry")] :=
  ⟨rfl, rfl, by decide, rfl, by decide⟩

/-- C4 counterexample container. -/
def c4Sidecar : ContainerSpec :=
  { name := "sidecar" }

/-- C4 counterexample input: a collector resource declaring one additional
container. -/
def c4Params : Params :=
  { otelCol := { name := "c4-col",
                 spec := { additionalContainers := [c4Sidecar] } } }

/-- C4 counterexample: the claim says the managed container produced by
Container sits at index 0 of the container list with user-declared additional
containers after it. In the collector DaemonSet the first container is the
user-declared sidecar, not the managed container. -/
theorem c4_primary_not_first :
    (collector.DaemonSet c4Params).template.spec.containers.head? = some c4Sidecar ∧
    c4Sidecar ≠ collector.Container c4Params.config c4Params.otelCol true :=
  ⟨rfl, by decide⟩

/-- C4 amended: the collector DaemonSet appends the managed container after
the user-declared additional containers, so it sits at the last index and at
index 0 only when no additional containers are declared; the target-allocator
and bridge Deployments carry the managed container alone at index 0. -/
theorem c4_container_order (params : Params) (cfg : Config)
    (bridge : v1alpha1.OpAMPBridge) :
    (collector.DaemonSet params).template.spec.containers =
      params.otelCol.spec.additionalContainers
        ++ [collector.Container params.config params.otelCol true] ∧
    (targetallocator.Deployment params).template.spec.containers =
      [targetallocator.Container params.config params.otelCol] ∧
    (opampbridge.Deployment cfg bridge).template.spec.containers =
      [opampbridge.Container cfg bridge] :=
  ⟨rfl, rfl, rfl⟩

/-- C7 counterexample input: a target-allocator compile with host networking
unset. -/
def c7Params : Params :=
  { otelCol := { name := "c7-col", nspace := "c7-ns" } }

/-- C7 counterexample: the claim says every compiled pod spec pairs its DNS
policy with the host-network flag, ClusterFirst when HostNetwork is false.
The target-allocator Deployment sets neither field, so at this concrete input
the pod spec has HostNetwork false and a DNS policy equal to the empty zero
value, not ClusterFirst. -/
theorem c7_ta_dns_policy_unset :
    (targetallocator.Deployment c7Params).template.spec.hostNetwork = false ∧
    (targetallocator.Deployment c7Params).template.spec.dnsPolicy = "" ∧
    (targetallocator.Deployment c7Params).template.spec.dnsPolicy
      ≠ dnsClusterFirst :=
  ⟨rfl, rfl, by decide⟩

/-- C7 amended: the collector DaemonSet and the bridge Deployment always pair
the DNS policy with the host-network flag, ClusterFirst when HostNetwork is
false and ClusterFirstWithHostNet when it is true; the target-allocator
Deployment sets neither field, leaving HostNetwork false and the DNS policy
at its empty zero value. -/
theorem c7_dns_policy_pairing (params : Params) (cfg : Config)
    (bridge : v1alpha1.OpAMPBridge) :
    ((collector.DaemonSet params).template.spec.hostNetwork
      = params.otelCol.spec.hostNetwork) ∧
    ((collector.DaemonSet params).template.spec.dnsPolicy =
      if params.otelCol.spec.hostNetwork then dnsClusterFirstWithHostNet
      else dnsClusterFirst) ∧
    ((opampbridge.Deployment cfg bridge).template.spec.hostNetwork
      = bridge.spec.hostNetwork) ∧
    ((opampbridge.Deployment cfg bridge).template.spec.dnsPolicy =
      if bridge.spec.hostNetwork then dnsClusterFirstWithHostNet
      else dnsClusterFirst) ∧
    ((targetallocator.Deployment params).template.spec.hostNetwork = false) ∧
    ((targetallocator.Deployment params).template.spec.dnsPolicy = "") :=
  ⟨rfl, rfl, rfl, rfl, rfl, rfl⟩

/-- C8: when construction of the dependent config object fails, the
target-allocator Deployment compiler still returns the complete manifest, and
its annotation set is exactly the resource annotations without the checksum
key; the failure is never propagated. -/
theorem c8_degraded_construction (params : Params) (e : String)
    (h : params.taConfigMapResult = Except.error e)
    (h2 : lookupL params.otelCol.annotations targetallocator.checksumKey = none) :
    (targetallocator.Deployment params).template.meta.annotations
      = params.otelCol.annotations ∧
    lookupL (targetallocator.Deployment params).template.meta.annotations
      targetallocator.checksumKey = none ∧
    (targetallocator.Deployment params).meta.name
      = naming.TargetAllocator params.otelCol.name ∧
    (targetallocator.Deployment params).selectorMatchLabels
      = targetallocator.Labels params.otelCol
          (naming.TargetAllocator params.otelCol.name) ∧
    (targetallocator.Deployment params).template.spec.containers
      = [targetallocator.Container params.config params.otelCol] := by
  have ha : (targetallocator.Deployment params).template.meta.annotations
      = params.otelCol.annotations := by
    simp [targetallocator.Deployment, targetallocator.Annotations, h]
  refine ⟨ha, ?_, rfl, rfl, rfl⟩
  rw [ha]
  exact h2

/-- C8 witness input: the dependent config object construction failed. -/
def c8Params : Params :=
  { otelCol := { name := "c8-col", annotations := [("team", "observability")] },
    taConfigMapResult := Except.error ("configmap build failed") }

theorem c8_degraded_construction_witness :
    (targetallocator.Deployment c8Params).template.meta.annotations
      = c8Params.otelCol.annotations ∧
    lookupL (targetallocator.Deployment c8Params).template.meta.annotations
      targetallocator.checksumKey = none :=
  ⟨(c8_degraded_construction c8Params ("configmap build failed") rfl
      (by decide)).1,
   (c8_degraded_construction c8Params ("configmap build failed") rfl
      (by decide)).2.1⟩
